import Mathlib

/-!
Verification development for the "Robo AI — Chat with Google Docs" repository.

The repository is a React/TypeScript single-page application.  The state the
claims talk about lives in the `App` component (src/unnamed/part_000): the
knowledge-group store (`urlGroups`, `activeUrlGroupId`), the chat log
(`chatMessages`), the in-flight flags, the suggestion list and the document
panel error, together with the handler functions `handleAddUrl`,
`handleRemoveUrl`, `handleAddDocument`, `handleRemoveDocument`,
`handleSendMessage` and `fetchAndSetInitialSuggestions`, and the
`KnowledgeBaseManager` component (src/unnamed/part_001) with its caller-side
`handleAddUrl` validation.

The embedding below translates those functions into pure state-transition
functions.  External collaborators (the Gemini service, `JSON.parse`,
`new URL`, mammoth's docx extraction, pdf.js page extraction) are passed in
as explicit parameters/results, mirroring §6 of the specification which
treats them as black-box collaborators.  JavaScript `Date.now()` is modelled by
an explicit `now : Nat` parameter; JS string falsiness (`s ||` / `if (s)`)
is modelled explicitly.
-/

/-- types.ts: `MessageSender`. -/
inductive MessageSender where
  | user
  | model
  | system
deriving DecidableEq, Repr

/-- types.ts: `UrlContextMetadataItem`. -/
structure UrlContextMetadataItem where
  retrievedUrl : String
  urlRetrievalStatus : String
deriving DecidableEq, Repr

/-- types.ts: `ChatMessage`.  The optional TS fields `isLoading?` and
`urlContext?` become `Option`s (`none` = the field is absent/undefined);
`timestamp : Date` becomes a `Nat` (milliseconds, as produced by
`Date.now()`). -/
structure ChatMessage where
  id : String
  text : String
  sender : MessageSender
  timestamp : Nat
  isLoading : Option Bool
  urlContext : Option (List UrlContextMetadataItem)
deriving DecidableEq, Repr

/-- types.ts: `KnowledgeUrl`. -/
structure KnowledgeUrl where
  url : String
  title : String
deriving DecidableEq, Repr

/-- types.ts: `LocalDocument`. -/
structure LocalDocument where
  id : String
  name : String
  content : String
deriving DecidableEq, Repr

/-- types.ts: `URLGroup`. -/
structure URLGroup where
  id : String
  name : String
  urls : List KnowledgeUrl
  documents : List LocalDocument
deriving DecidableEq, Repr

/-- JavaScript's whitespace class, as used by `String.prototype.trim` and the
regex class `\s` (the ASCII members; the claims never exercise the exotic
Unicode space characters). -/
def isJsWhitespace (c : Char) : Bool :=
  c = ' ' || c = '\t' || c = '\n' || c = '\r' || c = '\x0b' || c = '\x0c'

/-- JavaScript `String.prototype.trim`: strip leading and trailing
whitespace. -/
def jsTrim (s : String) : String :=
  String.mk (((s.data.dropWhile isJsWhitespace).reverse.dropWhile isJsWhitespace).reverse)

/-- JavaScript `String.prototype.toLowerCase` (on the characters the app
compares: file extensions). -/
def jsToLower (s : String) : String :=
  String.mk (s.data.map Char.toLower)

/-- JavaScript `String.prototype.endsWith`. -/
def jsEndsWith (s suffix : String) : Bool :=
  decide (suffix.data.length ≤ s.data.length) &&
    decide (s.data.drop (s.data.length - suffix.data.length) = suffix.data)

/-- part_000 line 64: `const MAX_URLS = 20`. -/
def MAX_URLS : Nat := 20

/-- part_000 line 65: `const MAX_DOCS = 5`. -/
def MAX_DOCS : Nat := 5

/-- The `App` component state (part_000 lines 51-62) that the claims are
about: the group store, the active-group pointer, the chat log, the two
in-flight flags, the suggestion list and the document-panel state. -/
structure AppState where
  urlGroups : List URLGroup
  activeUrlGroupId : String
  chatMessages : List ChatMessage
  isLoading : Bool
  isFetchingSuggestions : Bool
  initialQuerySuggestions : List String
  isProcessingDoc : Bool
  docError : Option String
deriving DecidableEq, Repr

/-- part_000 line 67: `urlGroups.find(group => group.id === activeUrlGroupId)`. -/
def activeGroup (st : AppState) : Option URLGroup :=
  st.urlGroups.find? (fun group => group.id = st.activeUrlGroupId)

/-- part_000 line 68: `activeGroup ? activeGroup.urls : []`. -/
def currentUrlsForChat (st : AppState) : List KnowledgeUrl :=
  match activeGroup st with
  | some g => g.urls
  | none => []

/-- part_000 line 69: `activeGroup ? activeGroup.documents : []`. -/
def currentDocsForChat (st : AppState) : List LocalDocument :=
  match activeGroup st with
  | some g => g.documents
  | none => []

/-- part_000 line 52 / part_001 line 225: `setActiveUrlGroupId` is the raw
`useState` setter; it is passed to `KnowledgeBaseManager` as `onSetGroupId`
and invoked as `onSetGroupId(e.target.value)` with no validation of the id.
Changing the active id then triggers the welcome-message effect of part_000
lines 84-97, modelled below by `applyWelcomeEffect`, which resets the chat
log to a single fresh system welcome message. -/
def setActiveUrlGroupId (st : AppState) (groupId : String) : AppState :=
  { st with activeUrlGroupId := groupId }

/-- part_000 lines 152-164: the store-level `handleAddUrl`. -/
def handleAddUrl (st : AppState) (url : String) : AppState :=
  { st with urlGroups := st.urlGroups.map (fun group =>
      if group.id = st.activeUrlGroupId then
        if group.urls.length < MAX_URLS && !(group.urls.any (fun item => item.url = url)) then
          { group with urls := group.urls ++ [{ url := url, title := url }] }
        else group
      else group) }

/-- part_000 lines 166-175: `handleRemoveUrl`. -/
def handleRemoveUrl (st : AppState) (urlToRemove : String) : AppState :=
  { st with urlGroups := st.urlGroups.map (fun group =>
      if group.id = st.activeUrlGroupId then
        { group with urls := group.urls.filter (fun item => item.url ≠ urlToRemove) }
      else group) }

/-- part_000 lines 233-242: `handleRemoveDocument`. -/
def handleRemoveDocument (st : AppState) (docIdToRemove : String) : AppState :=
  { st with urlGroups := st.urlGroups.map (fun group =>
      if group.id = st.activeUrlGroupId then
        { group with documents := group.documents.filter (fun doc => doc.id ≠ docIdToRemove) }
      else group) }

/-- part_000 lines 181-200: the extraction step of `handleAddDocument`.
`docxExtract` is the outcome of the external `mammoth.extractRawText` call
(`Except.error` = the collaborator threw, carrying the thrown message);
`pdfPages` is the outcome of the external pdf.js pipeline, one string per
page (each page's text is already the space-join of its items, produced by
the collaborator).  The pdf branch concatenates the page texts, each
followed by a paragraph break, and trims — exactly lines 190-197. -/
def extractText (fileName : String) (docxExtract : Except String String)
    (pdfPages : Except String (List String)) : Except String String :=
  if jsEndsWith (jsToLower fileName) ".docx" then
    docxExtract
  else if jsEndsWith (jsToLower fileName) ".pdf" then
    match pdfPages with
    | Except.ok pages => Except.ok (jsTrim (String.join (pages.map (fun p => p ++ "\n\n"))))
    | Except.error e => Except.error e
  else
    Except.error "Unsupported file type. Please select a .docx or .pdf file."

/-- part_000 lines 177-231: `handleAddDocument`.  The function sets the busy
flag and clears the panel error on entry, runs the extraction, throws on an
unsupported extension or empty/whitespace-only text (the thrown message
lands in `docError` via the catch block, lines 224-227), otherwise appends
the new document to the active group when it is below capacity and reports
the capacity message otherwise (lines 212-223), and always clears the busy
flag in the finally block (line 229). -/
def handleAddDocument (now : Nat) (fileName : String) (docxExtract : Except String String)
    (pdfPages : Except String (List String)) (st : AppState) : AppState :=
  let st1 : AppState := { st with isProcessingDoc := true, docError := none }
  let st2 : AppState :=
    match extractText fileName docxExtract pdfPages with
    | Except.error msg => { st1 with docError := some msg }
    | Except.ok textContent =>
      if jsTrim textContent = "" then
        { st1 with
            docError := some "Could not extract any text from the document. It might be empty or image-based." }
      else
        let newDocument : LocalDocument :=
          { id := "doc-" ++ toString now ++ "-" ++ fileName,
            name := fileName,
            content := textContent }
        let capacityHit := st1.urlGroups.any (fun group =>
          group.id = st1.activeUrlGroupId && !(group.documents.length < MAX_DOCS))
        { st1 with
            urlGroups := st1.urlGroups.map (fun group =>
              if group.id = st1.activeUrlGroupId then
                if group.documents.length < MAX_DOCS then
                  { group with documents := group.documents ++ [newDocument] }
                else group
              else group),
            docError :=
              if capacityHit then
                some ("Maximum of " ++ toString MAX_DOCS ++ " documents reached.")
              else none }
  { st2 with isProcessingDoc := false }

/-- The `KnowledgeBaseManager` component state that its `handleAddUrl`
(part_001 lines 150-170) reads and writes: the app state it receives as
props plus its own `currentUrlInput` and `urlError` fields (lines 135-136). -/
structure KBState where
  app : AppState
  currentUrlInput : String
  urlError : Option String
deriving DecidableEq, Repr

/-- part_001 lines 150-170: the caller-side `handleAddUrl` of
`KnowledgeBaseManager`.  `isValidUrl` abstracts the external
`new URL(urlString)` constructor (part_001 lines 141-148): it returns `true`
exactly when the constructor would succeed.  The `urls` prop is the active
group's url list (`currentUrlsForChat`, part_000 line 332) and the `maxUrls`
prop is `MAX_URLS` (part_000 line 335). -/
def kbHandleAddUrl (isValidUrl : String → Bool) (kb : KBState) : KBState :=
  let urls := currentUrlsForChat kb.app
  if jsTrim kb.currentUrlInput = "" then
    { kb with urlError := some "URL cannot be empty." }
  else if !(isValidUrl kb.currentUrlInput) then
    { kb with urlError := some "Invalid URL format. Please include http:// or https://" }
  else if urls.length ≥ MAX_URLS then
    { kb with
        urlError := some ("You can add a maximum of " ++ toString MAX_URLS ++ " URLs to the current group.") }
  else if urls.any (fun item => item.url = kb.currentUrlInput) then
    { kb with urlError := some "This URL has already been added to the current group." }
  else
    { kb with
        app := handleAddUrl kb.app kb.currentUrlInput,
        currentUrlInput := "",
        urlError := none }

/-- The shape of the remote generation service's response (services/geminiService,
an external collaborator, spec §6): generated text plus optional URL-retrieval
metadata.  `text : Option String` models a possibly absent `response.text`
(`none` = undefined). -/
structure GenResponse where
  text : Option String
  urlContextMetadata : Option (List UrlContextMetadataItem)
deriving DecidableEq, Repr

/-- JavaScript `a || b` on a possibly-absent string `a`: the fallback is used
when `a` is undefined or the empty string (both falsy). -/
def jsOr (o : Option String) (fallback : String) : String :=
  match o with
  | some s => if s = "" then fallback else s
  | none => fallback

/-- part_000 lines 261-266: the user message built by `handleSendMessage`. -/
def userMessage (now : Nat) (query : String) : ChatMessage :=
  { id := "user-" ++ toString now,
    text := query,
    sender := MessageSender.user,
    timestamp := now,
    isLoading := none,
    urlContext := none }

/-- part_000 lines 268-274: the placeholder model message built by
`handleSendMessage` (`isLoading: true`, provisional text). -/
def modelPlaceholderMessage (now : Nat) : ChatMessage :=
  { id := "model-response-" ++ toString now,
    text := "Thinking...",
    sender := MessageSender.model,
    timestamp := now,
    isLoading := some true,
    urlContext := none }

/-- part_000 lines 249-254: the system message appended when no API key is
configured. -/
def apiKeyErrorMessage (now : Nat) : ChatMessage :=
  { id := "error-apikey-" ++ toString now,
    text := "ERROR: API Key (process.env.API_KEY) is not configured. Please set it up to send messages.",
    sender := MessageSender.system,
    timestamp := now,
    isLoading := none,
    urlContext := none }

/-- part_000 lines 244-276: the synchronous head of `handleSendMessage`, up
to (and including) appending the user message and the placeholder — i.e.
everything that runs before the `await` on the generation request.
`hasApiKey` models `process.env.API_KEY` being set.  Line 245 rejects the
call when the trimmed query is empty or either in-flight flag is set. -/
def handleSendMessageStart (hasApiKey : Bool) (now : Nat) (query : String)
    (st : AppState) : AppState :=
  if jsTrim query = "" || st.isLoading || st.isFetchingSuggestions then
    st
  else if !hasApiKey then
    { st with chatMessages := st.chatMessages ++ [apiKeyErrorMessage now] }
  else
    { st with
        isLoading := true,
        initialQuerySuggestions := [],
        chatMessages := st.chatMessages ++ [userMessage now query, modelPlaceholderMessage now] }

/-- part_000 lines 282-288 and 298-300: the continuation of
`handleSendMessage` when the generation request resolves successfully — the
placeholder (matched by id) is replaced by a copy of the placeholder object
carrying the response text (with the empty-response fallback), a cleared
loading flag and the returned retrieval metadata; the finally block clears
the in-flight flag. -/
def handleSendMessageSuccess (now : Nat) (response : GenResponse) (st : AppState) : AppState :=
  let ph := modelPlaceholderMessage now
  { st with
      chatMessages := st.chatMessages.map (fun msg =>
        if msg.id = ph.id then
          { ph with
              text := jsOr response.text "I received an empty response.",
              isLoading := some false,
              urlContext := response.urlContextMetadata }
        else msg),
      isLoading := false }

/-- part_000 lines 289-300: the continuation of `handleSendMessage` when the
generation request rejects — the placeholder (matched by id) becomes a
system-sender error message whose text prefixes the failure reason with
"Error: " (with the thrown message's own fallback when it is absent/empty,
line 290); the finally block clears the in-flight flag. -/
def handleSendMessageFailure (now : Nat) (errMsg : Option String) (st : AppState) : AppState :=
  let errorMessage := jsOr errMsg "Failed to get response from AI."
  let ph := modelPlaceholderMessage now
  { st with
      chatMessages := st.chatMessages.map (fun msg =>
        if msg.id = ph.id then
          { ph with
              text := "Error: " ++ errorMessage,
              sender := MessageSender.system,
              isLoading := some false }
        else msg),
      isLoading := false }

/-- part_000 lines 85-89: the text of the welcome message shown when the
active group changes — the API-key error text when no key is configured,
otherwise a greeting naming the resolved active group
(`currentActiveGroup?.name || 'None'`: the `None` fallback applies when the
active id resolves to no group, or when the group's name is empty). -/
def welcomeMessageText (hasApiKey : Bool) (st : AppState) : String :=
  if !hasApiKey then
    "ERROR: Gemini API Key (process.env.API_KEY) is not configured. Please set this environment variable to use the application."
  else
    "Welcome to Documentation Chat Bot! You're currently browsing content from: \"" ++
      jsOr ((activeGroup st).map URLGroup.name) "None" ++
      "\". Just ask me questions, or try one of the suggestions below to get started"

/-- part_000 lines 84-97: the effect with dependencies
`[activeUrlGroupId, urlGroups]` that fires on every active-group change and
resets the chat log to a single fresh system welcome message (id
`system-welcome-` + active id + `-` + `Date.now()`). -/
def applyWelcomeEffect (hasApiKey : Bool) (now : Nat) (st : AppState) : AppState :=
  { st with chatMessages :=
      [{ id := "system-welcome-" ++ st.activeUrlGroupId ++ "-" ++ toString now,
         text := welcomeMessageText hasApiKey st,
         sender := MessageSender.system,
         timestamp := now,
         isLoading := none,
         urlContext := none }] }

/-- A JSON value, as produced by the host's `JSON.parse` (an external
builtin; only its result shape matters to the suggestion flow). -/
inductive Json where
  | null : Json
  | bool : Bool → Json
  | num : Int → Json
  | str : String → Json
  | arr : List Json → Json
  | obj : List (String × Json) → Json
deriving Repr

/-- JavaScript truthiness of a parsed JSON value (`if (parsed && ...)`,
part_000 line 122). -/
def jsTruthy : Json → Bool
  | Json.null => false
  | Json.bool b => b
  | Json.num n => n ≠ 0
  | Json.str s => s ≠ ""
  | Json.arr _ => true
  | Json.obj _ => true

/-- JavaScript property access `parsed.suggestions` (part_000 line 122):
defined on objects, `undefined` (`none`) on every other value. -/
def jsonField : Json → String → Option Json
  | Json.obj fields, k => (fields.find? (fun kv => kv.1 = k)).map (fun kv => kv.2)
  | _, _ => none

/-- `typeof s === 'string'` projection used by the filter on line 123. -/
def isStringJson : Json → Option String
  | Json.str s => some s
  | _ => none

/-- `\w` of the fence regex (part_000 line 116). -/
def isWordChar (c : Char) : Bool := c.isAlphanum || c = '_'

/-- The backtick character (code point 96), the fence delimiter. -/
def backtickChar : Char := Char.ofNat 96

/-- part_000 lines 116-120: the fence regex
`^` three backticks `(\w*)?\s*\n?(.*?)\n?\s*` three backticks `$` with the
dot-all flag, applied to the trimmed response text; returns capture group 2
when the regex matches.  Operationally: the string must open with a fence,
the optional language tag (`\w*`) and following whitespace are skipped, the
string must close with a fence, and the lazy middle group excludes the
whitespace run before the closing fence (absorbed by `\n?\s*`). -/
def fenceInner (t : String) : Option String :=
  let cs := t.data
  if cs.take 3 = [backtickChar, backtickChar, backtickChar] then
    let rest := ((cs.drop 3).dropWhile isWordChar).dropWhile isJsWhitespace
    if rest.length ≥ 3 ∧ rest.drop (rest.length - 3) = [backtickChar, backtickChar, backtickChar] then
      some (String.mk (((rest.take (rest.length - 3)).reverse.dropWhile isJsWhitespace).reverse))
    else
      none
  else
    none

/-- part_000 lines 115-120: `jsonStr` after trimming and conditional fence
stripping (`if (match && match[2]) jsonStr = match[2].trim()`; an empty
capture is falsy, so it does not replace `jsonStr`). -/
def strippedBody (body : String) : String :=
  let jsonStr := jsTrim body
  match fenceInner jsonStr with
  | some m2 => if m2 = "" then jsonStr else jsTrim m2
  | none => jsonStr

/-- Helper for part_000's system log messages (no loading flag, no metadata). -/
def sysMsg (id text : String) (now : Nat) : ChatMessage :=
  { id := id,
    text := text,
    sender := MessageSender.system,
    timestamp := now,
    isLoading := none,
    urlContext := none }

/-- part_000 lines 100-140: `fetchAndSetInitialSuggestions`, on the path
where the service call resolves (the outer catch is not taken).  `parseJson`
abstracts the host's `JSON.parse`: `none` models a thrown parse error.
Lines 101-104 short-circuit when both inputs are empty; lines 106-107 set
the fetching flag and clear the list; lines 112-133 strip the fence, parse,
validate the shape (`parsed && Array.isArray(parsed.suggestions)`), keep the
string elements, append a system message on a malformed shape or a parse
error, and keep the first four suggestions; line 138 (finally) clears the
fetching flag. -/
def fetchAndSetInitialSuggestionsResolved (parseJson : String → Option Json)
    (urls docContents : List String) (response : GenResponse) (now : Nat)
    (st : AppState) : AppState :=
  if urls.length = 0 && docContents.length = 0 then
    { st with initialQuerySuggestions := [] }
  else
    let st1 : AppState := { st with isFetchingSuggestions := true, initialQuerySuggestions := [] }
    let step : List String × AppState :=
      match response.text with
      | some body =>
        if body = "" then ([], st1)
        else
          match parseJson (strippedBody body) with
          | some parsed =>
            match (if jsTruthy parsed then jsonField parsed "suggestions" else none) with
            | some (Json.arr l) => (l.filterMap isStringJson, st1)
            | _ =>
              ([], { st1 with chatMessages := st1.chatMessages ++
                      [sysMsg ("sys-err-suggestion-fmt-" ++ toString now)
                        "Received suggestions in an unexpected format." now] })
          | none =>
            ([], { st1 with chatMessages := st1.chatMessages ++
                    [sysMsg ("sys-err-suggestion-parse-" ++ toString now)
                      "Error parsing suggestions from AI." now] })
      | none => ([], st1)
    { step.2 with
        initialQuerySuggestions := step.1.take 4,
        isFetchingSuggestions := false }

/-- part_000 lines 134-139: `fetchAndSetInitialSuggestions` on the path where
the service call itself rejects (the outer catch): a single system message is
appended, the suggestion list stays empty, the fetching flag is cleared. -/
def fetchAndSetInitialSuggestionsRejected (urls docContents : List String)
    (errMsg : Option String) (now : Nat) (st : AppState) : AppState :=
  if urls.length = 0 && docContents.length = 0 then
    { st with initialQuerySuggestions := [] }
  else
    let st1 : AppState := { st with isFetchingSuggestions := true, initialQuerySuggestions := [] }
    let errorMessage := jsOr errMsg "Failed to fetch initial suggestions."
    { st1 with
        chatMessages := st1.chatMessages ++
          [sysMsg ("sys-err-suggestion-fetch-" ++ toString now)
            ("Error fetching suggestions: " ++ errorMessage) now],
        isFetchingSuggestions := false }

/-- part_000 lines 15-25: `GEMINI_DOCS_KNOWLEDGE_URLS`. -/
def GEMINI_DOCS_KNOWLEDGE_URLS : List KnowledgeUrl :=
  [ { url := "https://ai.google.dev/gemini-api/docs", title := "Gemini API Documentation" },
    { url := "https://ai.google.dev/gemini-api/docs/quickstart", title := "Gemini API Quickstart" },
    { url := "https://ai.google.dev/gemini-api/docs/api-key", title := "Get an API Key" },
    { url := "https://ai.google.dev/gemini-api/docs/libraries", title := "SDK Libraries" },
    { url := "https://ai.google.dev/gemini-api/docs/models", title := "Gemini Models" },
    { url := "https://ai.google.dev/gemini-api/docs/pricing", title := "Pricing Information" },
    { url := "https://ai.google.dev/gemini-api/docs/rate-limits", title := "Rate Limits" },
    { url := "https://ai.google.dev/gemini-api/docs/billing", title := "Billing and Payments" },
    { url := "https://ai.google.dev/gemini-api/docs/changelog", title := "API Changelog" } ]

/-- part_000 lines 27-43: `MODEL_CAPABILITIES_KNOWLEDGE_URLS`. -/
def MODEL_CAPABILITIES_KNOWLEDGE_URLS : List KnowledgeUrl :=
  [ { url := "https://ai.google.dev/gemini-api/docs/text-generation", title := "Text Generation" },
    { url := "https://ai.google.dev/gemini-api/docs/image-generation", title := "Image Generation" },
    { url := "https://ai.google.dev/gemini-api/docs/video", title := "Video Modality" },
    { url := "https://ai.google.dev/gemini-api/docs/speech-generation", title := "Speech Generation" },
    { url := "https://ai.google.dev/gemini-api/docs/music-generation", title := "Music Generation" },
    { url := "https://ai.google.dev/gemini-api/docs/long-context", title := "Long Context" },
    { url := "https://ai.google.dev/gemini-api/docs/structured-output", title := "Structured Output (JSON)" },
    { url := "https://ai.google.dev/gemini-api/docs/thinking", title := "Model Thinking" },
    { url := "https://ai.google.dev/gemini-api/docs/function-calling", title := "Function Calling" },
    { url := "https://ai.google.dev/gemini-api/docs/document-processing", title := "Document Processing" },
    { url := "https://ai.google.dev/gemini-api/docs/image-understanding", title := "Image Understanding" },
    { url := "https://ai.google.dev/gemini-api/docs/video-understanding", title := "Video Understanding" },
    { url := "https://ai.google.dev/gemini-api/docs/audio", title := "Audio Modality" },
    { url := "https://ai.google.dev/gemini-api/docs/code-execution", title := "Code Execution" },
    { url := "https://ai.google.dev/gemini-api/docs/grounding", title := "Grounding with Google Search" } ]

/-- part_000 lines 45-48: `INITIAL_URL_GROUPS`. -/
def INITIAL_URL_GROUPS : List URLGroup :=
  [ { id := "gemini-overview", name := "Gemini Docs Overview",
      urls := GEMINI_DOCS_KNOWLEDGE_URLS, documents := [] },
    { id := "model-capabilities", name := "Model Capabilities",
      urls := MODEL_CAPABILITIES_KNOWLEDGE_URLS, documents := [] } ]

/-- part_000 lines 51-62: the initial `App` state (`useState` initialisers).
The active id starts as `INITIAL_URL_GROUPS[0].id`. -/
def initAppState : AppState :=
  { urlGroups := INITIAL_URL_GROUPS,
    activeUrlGroupId := "gemini-overview",
    chatMessages := [],
    isLoading := false,
    isFetchingSuggestions := false,
    initialQuerySuggestions := [],
    isProcessingDoc := false,
    docError := none }

/-! ## Helper lemmas -/

/-- A list map whose function fixes every member is the identity. -/
theorem list_map_fix {α : Type} (l : List α) (f : α → α) (h : ∀ a ∈ l, f a = a) :
    l.map f = l := by
  induction l with
  | nil => rfl
  | cons a t ih =>
    have ha := h a (by simp)
    have ht := ih (fun x hx => h x (by simp [hx]))
    simp [ha, ht]

/-- `find?` commutes with a map that preserves the group id. -/
theorem find_map_of_id_pres (f : URLGroup → URLGroup) (hf : ∀ gr, (f gr).id = gr.id)
    (aid : String) (l : List URLGroup) :
    (l.map f).find? (fun gr => gr.id = aid) = (l.find? (fun gr => gr.id = aid)).map f := by
  induction l with
  | nil => rfl
  | cons hd tl ih =>
    by_cases h : hd.id = aid
    · simp [List.find?_cons, hf hd, h]
    · simp [List.find?_cons, hf hd, h, ih]

/-- The per-group function of the store-level `handleAddUrl` preserves ids. -/
theorem addUrl_id_pres (aid u : String) (gr : URLGroup) :
    (if gr.id = aid then
      if gr.urls.length < MAX_URLS && !(gr.urls.any (fun item => item.url = u)) then
        { gr with urls := gr.urls ++ [{ url := u, title := u }] }
      else gr
    else gr).id = gr.id := by
  by_cases h : gr.id = aid
  · rw [if_pos h]
    split <;> rfl
  · rw [if_neg h]

/-! ## C1 -/

/-- C1, counterexample.  The claim says `setActiveGroup` with an unknown id
leaves the active pointer unchanged (and reports `InvalidGroup`): on the
initial state, setting the unknown id "missing-group" does change the
active pointer — the setter is the raw state setter and performs no
validation. -/
theorem c1_counterexample :
    (initAppState.urlGroups.all (fun g => g.id ≠ "missing-group")) = true ∧
    (setActiveUrlGroupId initAppState "missing-group").activeUrlGroupId
      ≠ initAppState.activeUrlGroupId := by
  constructor
  · decide
  · decide

/-- C1, amended: `setActiveGroup(g)` unconditionally updates the active
pointer to `g`, performing no validation and reporting no error; the group
collection is untouched; the group-change effect then resets the chat log to
a single fresh system welcome message, and when `g` is not the id of any
group the active group thereafter resolves to none — the chat context falls
back to empty URL and document lists and the welcome message names the
fallback group "None". -/
theorem c1_setActiveGroup_amended (st : AppState) (g : String) (hasApiKey : Bool) (now : Nat)
    (hunknown : ∀ gr ∈ st.urlGroups, gr.id ≠ g) :
    (setActiveUrlGroupId st g).activeUrlGroupId = g ∧
    (setActiveUrlGroupId st g).urlGroups = st.urlGroups ∧
    activeGroup (setActiveUrlGroupId st g) = none ∧
    currentUrlsForChat (setActiveUrlGroupId st g) = [] ∧
    currentDocsForChat (setActiveUrlGroupId st g) = [] ∧
    (applyWelcomeEffect hasApiKey now (setActiveUrlGroupId st g)).chatMessages
      = [{ id := "system-welcome-" ++ g ++ "-" ++ toString now,
           text := welcomeMessageText hasApiKey (setActiveUrlGroupId st g),
           sender := MessageSender.system,
           timestamp := now,
           isLoading := none,
           urlContext := none }] ∧
    welcomeMessageText true (setActiveUrlGroupId st g)
      = "Welcome to Documentation Chat Bot! You're currently browsing content from: \"None\". Just ask me questions, or try one of the suggestions below to get started" := by
  have hnone : activeGroup (setActiveUrlGroupId st g) = none := by
    apply List.find?_eq_none.mpr
    intro gr hgr
    simpa using hunknown gr hgr
  refine ⟨rfl, rfl, hnone, by simp [currentUrlsForChat, hnone],
    by simp [currentDocsForChat, hnone], rfl, ?_⟩
  unfold welcomeMessageText
  rw [hnone]
  rfl

set_option maxRecDepth 8192 in
/-- C1 witness: the amended statement evaluated on the initial state and the
unknown id "missing-group" (with a configured key, at time 11): the pointer
moves to the unknown id, the chat log becomes the single welcome message
naming the fallback group "None". -/
theorem c1_setActiveGroup_amended_witness :
    (setActiveUrlGroupId initAppState "missing-group").activeUrlGroupId = "missing-group" ∧
    (setActiveUrlGroupId initAppState "missing-group").urlGroups = initAppState.urlGroups ∧
    activeGroup (setActiveUrlGroupId initAppState "missing-group") = none ∧
    currentUrlsForChat (setActiveUrlGroupId initAppState "missing-group") = [] ∧
    currentDocsForChat (setActiveUrlGroupId initAppState "missing-group") = [] ∧
    (applyWelcomeEffect true 11 (setActiveUrlGroupId initAppState "missing-group")).chatMessages
      = [{ id := "system-welcome-missing-group-11",
           text := welcomeMessageText true (setActiveUrlGroupId initAppState "missing-group"),
           sender := MessageSender.system,
           timestamp := 11,
           isLoading := none,
           urlContext := none }] ∧
    welcomeMessageText true (setActiveUrlGroupId initAppState "missing-group")
      = "Welcome to Documentation Chat Bot! You're currently browsing content from: \"None\". Just ask me questions, or try one of the suggestions below to get started" := by
  have h := c1_setActiveGroup_amended initAppState "missing-group" true 11 (by decide)
  exact ⟨h.1, h.2.1, h.2.2.1, h.2.2.2.1, h.2.2.2.2.1,
    (h.2.2.2.2.2.1).trans (by decide), h.2.2.2.2.2.2⟩

/-! ## C4 -/

/-- C4: `handleSendMessage` is a no-op — the state, and in particular the
message log, is unchanged and no placeholder is appended — whenever the
trimmed query is empty, or a chat request is in flight, or the suggestion
fetch is in flight. -/
theorem c4_sendMessage_reject (hasApiKey : Bool) (now : Nat) (query : String) (st : AppState)
    (h : jsTrim query = "" ∨ st.isLoading = true ∨ st.isFetchingSuggestions = true) :
    handleSendMessageStart hasApiKey now query st = st := by
  unfold handleSendMessageStart
  rcases h with h | h | h <;> simp [h]

/-- C4 witness: a whitespace-only query on the initial state, and a non-empty
query while a request is in flight, both leave the state unchanged. -/
theorem c4_sendMessage_reject_witness :
    handleSendMessageStart true 5 "   " initAppState = initAppState ∧
    handleSendMessageStart true 5 "hello" { initAppState with isLoading := true }
      = { initAppState with isLoading := true } :=
  ⟨c4_sendMessage_reject true 5 "   " initAppState (Or.inl (by decide)),
   c4_sendMessage_reject true 5 "hello" { initAppState with isLoading := true }
     (Or.inr (Or.inl rfl))⟩

/-! ## C9 -/

/-- C9: for a URL `u` not present in the active group, adding `u` and then
removing `u` returns the whole store — in particular the group's URL list,
members and order included — to its prior state. -/
theorem c9_addUrl_removeUrl_roundtrip (st : AppState) (u : String)
    (hfresh : ∀ g ∈ st.urlGroups, g.id = st.activeUrlGroupId → ∀ item ∈ g.urls, item.url ≠ u) :
    handleRemoveUrl (handleAddUrl st u) u = st := by
  unfold handleAddUrl handleRemoveUrl
  simp only [List.map_map]
  have hfix : ∀ g ∈ st.urlGroups,
      ((fun group =>
          if group.id = st.activeUrlGroupId then
            { group with urls := group.urls.filter (fun item => item.url ≠ u) }
          else group) ∘
        (fun group =>
          if group.id = st.activeUrlGroupId then
            if group.urls.length < MAX_URLS && !(group.urls.any (fun item => item.url = u)) then
              { group with urls := group.urls ++ [{ url := u, title := u }] }
            else group
          else group)) g = g := by
    intro g hg
    obtain ⟨gid, gname, gurls, gdocs⟩ := g
    simp only [Function.comp_apply]
    by_cases hid : gid = st.activeUrlGroupId
    · have hfilter : gurls.filter (fun item => item.url ≠ u) = gurls :=
        List.filter_eq_self.mpr (fun item hitem => by
          simpa using hfresh ⟨gid, gname, gurls, gdocs⟩ hg hid item hitem)
      by_cases hcond :
          (gurls.length < MAX_URLS && !(gurls.any (fun item => item.url = u))) = true
      · simp only [hid, if_true, hcond, List.filter_append, hfilter]
        simp
      · simp [hid, hcond, hfilter]
        intro a ha
        exact hfresh ⟨gid, gname, gurls, gdocs⟩ hg hid a ha
    · simp [hid]
  rw [list_map_fix _ _ hfix]

/-- C9 witness: the round trip evaluated on the initial state with a fresh
URL. -/
theorem c9_addUrl_removeUrl_roundtrip_witness :
    handleRemoveUrl (handleAddUrl initAppState "https://fresh.example/page") "https://fresh.example/page"
      = initAppState :=
  c9_addUrl_removeUrl_roundtrip initAppState "https://fresh.example/page" (by decide)

/-! ## C10 -/

/-- Mapping a function over the group list acts pointwise on indexed access. -/
theorem map_getElem_some (l : List URLGroup) (f : URLGroup → URLGroup) (i : Nat) (g : URLGroup)
    (h : l[i]? = some g) : (l.map f)[i]? = some (f g) := by
  rw [List.getElem?_map f l i, h]
  rfl

/-- The per-group function mapped by the store-level `handleAddUrl`
(part_000 lines 154-162), named for the frame lemmas. -/
def addUrlGroupFun (aid u : String) (group : URLGroup) : URLGroup :=
  if group.id = aid then
    if group.urls.length < MAX_URLS && !(group.urls.any (fun item => item.url = u)) then
      { group with urls := group.urls ++ [{ url := u, title := u }] }
    else group
  else group

/-- The per-group function mapped by `handleRemoveUrl` (part_000 lines
168-173). -/
def removeUrlGroupFun (aid ur : String) (group : URLGroup) : URLGroup :=
  if group.id = aid then
    { group with urls := group.urls.filter (fun item => item.url ≠ ur) }
  else group

/-- The per-group function mapped by `handleRemoveDocument` (part_000 lines
235-241). -/
def removeDocGroupFun (aid docId : String) (group : URLGroup) : URLGroup :=
  if group.id = aid then
    { group with documents := group.documents.filter (fun doc => doc.id ≠ docId) }
  else group

/-- The per-group function mapped by the success path of `handleAddDocument`
(part_000 lines 213-222). -/
def addDocGroupFun (aid : String) (nd : LocalDocument) (group : URLGroup) : URLGroup :=
  if group.id = aid then
    if group.documents.length < MAX_DOCS then
      { group with documents := group.documents ++ [nd] }
    else group
  else group

theorem handleAddUrl_urlGroups (st : AppState) (u : String) :
    (handleAddUrl st u).urlGroups = st.urlGroups.map (addUrlGroupFun st.activeUrlGroupId u) := rfl

theorem handleRemoveUrl_urlGroups (st : AppState) (ur : String) :
    (handleRemoveUrl st ur).urlGroups
      = st.urlGroups.map (removeUrlGroupFun st.activeUrlGroupId ur) := rfl

theorem handleRemoveDocument_urlGroups (st : AppState) (docId : String) :
    (handleRemoveDocument st docId).urlGroups
      = st.urlGroups.map (removeDocGroupFun st.activeUrlGroupId docId) := rfl

theorem addUrlGroupFun_fix (aid u : String) (g : URLGroup) :
    (addUrlGroupFun aid u g).id = g.id ∧ (addUrlGroupFun aid u g).name = g.name ∧
    (addUrlGroupFun aid u g).documents = g.documents ∧
    (g.id ≠ aid → addUrlGroupFun aid u g = g) := by
  unfold addUrlGroupFun
  refine ⟨?_, ?_, ?_, ?_⟩
  · split
    · split <;> rfl
    · rfl
  · split
    · split <;> rfl
    · rfl
  · split
    · split <;> rfl
    · rfl
  · intro hne
    rw [if_neg hne]

theorem removeUrlGroupFun_fix (aid ur : String) (g : URLGroup) :
    (removeUrlGroupFun aid ur g).id = g.id ∧ (removeUrlGroupFun aid ur g).name = g.name ∧
    (removeUrlGroupFun aid ur g).documents = g.documents ∧
    (g.id ≠ aid → removeUrlGroupFun aid ur g = g) := by
  unfold removeUrlGroupFun
  refine ⟨?_, ?_, ?_, fun hne => by rw [if_neg hne]⟩ <;> (split <;> rfl)

theorem removeDocGroupFun_fix (aid docId : String) (g : URLGroup) :
    (removeDocGroupFun aid docId g).id = g.id ∧ (removeDocGroupFun aid docId g).name = g.name ∧
    (removeDocGroupFun aid docId g).urls = g.urls ∧
    (g.id ≠ aid → removeDocGroupFun aid docId g = g) := by
  unfold removeDocGroupFun
  refine ⟨?_, ?_, ?_, fun hne => by rw [if_neg hne]⟩ <;> (split <;> rfl)

theorem addDocGroupFun_fix (aid : String) (nd : LocalDocument) (g : URLGroup) :
    (addDocGroupFun aid nd g).id = g.id ∧ (addDocGroupFun aid nd g).name = g.name ∧
    (addDocGroupFun aid nd g).urls = g.urls ∧
    (g.id ≠ aid → addDocGroupFun aid nd g = g) := by
  unfold addDocGroupFun
  refine ⟨?_, ?_, ?_, ?_⟩
  · split
    · split <;> rfl
    · rfl
  · split
    · split <;> rfl
    · rfl
  · split
    · split <;> rfl
    · rfl
  · intro hne
    rw [if_neg hne]

/-- `handleAddDocument` either leaves the group list untouched (failure
paths) or maps the capacity-guarded append of one new document over it
(success path). -/
theorem addDocument_urlGroups_cases (now : Nat) (fileName : String)
    (dx : Except String String) (px : Except String (List String)) (st : AppState) :
    (handleAddDocument now fileName dx px st).urlGroups = st.urlGroups ∨
    ∃ nd, (handleAddDocument now fileName dx px st).urlGroups
      = st.urlGroups.map (addDocGroupFun st.activeUrlGroupId nd) := by
  unfold handleAddDocument
  cases hres : extractText fileName dx px with
  | error e => left; rfl
  | ok t =>
    by_cases htrim : jsTrim t = ""
    · left
      simp [htrim]
    · right
      refine ⟨{ id := "doc-" ++ toString now ++ "-" ++ fileName, name := fileName, content := t },
        ?_⟩
      simp only [htrim, if_neg]
      simp [addDocGroupFun, htrim]

/-- C10: every store mutation touches only the active group and only its
targeted list.  Pointwise over the group list: each operation preserves the
list length implicitly (indexed access stays defined), every group keeps its
id and name, non-active groups are entirely unchanged, URL operations leave
every document list unchanged, document operations leave every URL list
unchanged, and when the active id matches no group all four operations leave
the whole group list unchanged. -/
theorem c10_frame_effects (st : AppState) (u ur docId fileName : String) (now : Nat)
    (dx : Except String String) (px : Except String (List String)) :
    (∀ (i : Nat) (g : URLGroup), st.urlGroups[i]? = some g →
      (∃ g2, (handleAddUrl st u).urlGroups[i]? = some g2 ∧ g2.id = g.id ∧ g2.name = g.name ∧
        g2.documents = g.documents ∧ (g.id ≠ st.activeUrlGroupId → g2 = g)) ∧
      (∃ g2, (handleRemoveUrl st ur).urlGroups[i]? = some g2 ∧ g2.id = g.id ∧ g2.name = g.name ∧
        g2.documents = g.documents ∧ (g.id ≠ st.activeUrlGroupId → g2 = g)) ∧
      (∃ g2, (handleAddDocument now fileName dx px st).urlGroups[i]? = some g2 ∧
        g2.id = g.id ∧ g2.name = g.name ∧ g2.urls = g.urls ∧
        (g.id ≠ st.activeUrlGroupId → g2 = g)) ∧
      (∃ g2, (handleRemoveDocument st docId).urlGroups[i]? = some g2 ∧ g2.id = g.id ∧
        g2.name = g.name ∧ g2.urls = g.urls ∧ (g.id ≠ st.activeUrlGroupId → g2 = g))) ∧
    ((∀ g ∈ st.urlGroups, g.id ≠ st.activeUrlGroupId) →
      (handleAddUrl st u).urlGroups = st.urlGroups ∧
      (handleRemoveUrl st ur).urlGroups = st.urlGroups ∧
      (handleAddDocument now fileName dx px st).urlGroups = st.urlGroups ∧
      (handleRemoveDocument st docId).urlGroups = st.urlGroups) := by
  constructor
  · intro i g hg
    refine ⟨?_, ?_, ?_, ?_⟩
    · obtain ⟨h1, h2, h3, h4⟩ := addUrlGroupFun_fix st.activeUrlGroupId u g
      exact ⟨addUrlGroupFun st.activeUrlGroupId u g,
        by rw [handleAddUrl_urlGroups]; exact map_getElem_some _ _ i g hg, h1, h2, h3, h4⟩
    · obtain ⟨h1, h2, h3, h4⟩ := removeUrlGroupFun_fix st.activeUrlGroupId ur g
      exact ⟨removeUrlGroupFun st.activeUrlGroupId ur g,
        by rw [handleRemoveUrl_urlGroups]; exact map_getElem_some _ _ i g hg, h1, h2, h3, h4⟩
    · rcases addDocument_urlGroups_cases now fileName dx px st with hsame | ⟨nd, hmap⟩
      · exact ⟨g, by rw [hsame]; exact hg, rfl, rfl, rfl, fun h => rfl⟩
      · obtain ⟨h1, h2, h3, h4⟩ := addDocGroupFun_fix st.activeUrlGroupId nd g
        exact ⟨addDocGroupFun st.activeUrlGroupId nd g,
          by rw [hmap]; exact map_getElem_some _ _ i g hg, h1, h2, h3, h4⟩
    · obtain ⟨h1, h2, h3, h4⟩ := removeDocGroupFun_fix st.activeUrlGroupId docId g
      exact ⟨removeDocGroupFun st.activeUrlGroupId docId g,
        by rw [handleRemoveDocument_urlGroups]; exact map_getElem_some _ _ i g hg, h1, h2, h3, h4⟩
  · intro hnone
    refine ⟨?_, ?_, ?_, ?_⟩
    · rw [handleAddUrl_urlGroups]
      exact list_map_fix _ _ (fun g hg => (addUrlGroupFun_fix _ u g).2.2.2 (hnone g hg))
    · rw [handleRemoveUrl_urlGroups]
      exact list_map_fix _ _ (fun g hg => (removeUrlGroupFun_fix _ ur g).2.2.2 (hnone g hg))
    · rcases addDocument_urlGroups_cases now fileName dx px st with hsame | ⟨nd, hmap⟩
      · exact hsame
      · rw [hmap]
        exact list_map_fix _ _ (fun g hg => (addDocGroupFun_fix _ nd g).2.2.2 (hnone g hg))
    · rw [handleRemoveDocument_urlGroups]
      exact list_map_fix _ _ (fun g hg => (removeDocGroupFun_fix _ docId g).2.2.2 (hnone g hg))

/-- C10 witness: the frame statement evaluated on the initial state (index 1
is the non-active "model-capabilities" group, which all four operations
leave unchanged), and the all-groups-unchanged conclusion evaluated on a
state whose active id matches no group. -/
theorem c10_frame_effects_witness :
    ((handleAddUrl initAppState "https://x.example/a").urlGroups[1]?
        = some (INITIAL_URL_GROUPS.get ⟨1, by decide⟩) ∧
     (handleAddDocument 3 "notes.docx" (Except.ok "hello") (Except.error "")
        { initAppState with activeUrlGroupId := "nobody" }).urlGroups
        = initAppState.urlGroups) := by
  constructor
  · have h := (c10_frame_effects initAppState "https://x.example/a" "u" "d" "f" 0
      (Except.error "") (Except.error "")).1 1 (INITIAL_URL_GROUPS.get ⟨1, by decide⟩)
      (by decide)
    obtain ⟨⟨g2, hg2, hid, hname, hdocs, hfix⟩, _, _, _⟩ := h
    rw [hg2, hfix (by decide)]
  · have h := (c10_frame_effects { initAppState with activeUrlGroupId := "nobody" }
      "u" "u2" "d" "notes.docx" 3 (Except.ok "hello") (Except.error "")).2 (by decide)
    exact h.2.2.1

/-! ## C2 -/

/-- An add operation of the store: a URL add or a document add (the latter
carrying the timestamp, file name and the two collaborator outcomes). -/
inductive AddOp where
  | addUrlOp : String → AddOp
  | addDocOp : Nat → String → Except String String → Except String (List String) → AddOp

/-- Run one add operation against the store. -/
def applyAddOp (st : AppState) : AddOp → AppState
  | AddOp.addUrlOp u => handleAddUrl st u
  | AddOp.addDocOp now fileName dx px => handleAddDocument now fileName dx px st

/-- Run a sequence of add operations against the store. -/
def applyAddOps (st : AppState) (ops : List AddOp) : AppState :=
  ops.foldl applyAddOp st

/-- The capacity invariant of spec §3: every group's URL list is at most
`MAX_URLS` long and its document list at most `MAX_DOCS` long. -/
abbrev capacityInv (st : AppState) : Prop :=
  ∀ g ∈ st.urlGroups, g.urls.length ≤ MAX_URLS ∧ g.documents.length ≤ MAX_DOCS

theorem addUrlGroupFun_capacity (aid u : String) (g : URLGroup)
    (h : g.urls.length ≤ MAX_URLS ∧ g.documents.length ≤ MAX_DOCS) :
    (addUrlGroupFun aid u g).urls.length ≤ MAX_URLS ∧
    (addUrlGroupFun aid u g).documents.length ≤ MAX_DOCS := by
  unfold addUrlGroupFun
  split
  · split
    · rename_i hcond
      rw [Bool.and_eq_true] at hcond
      have hlt : g.urls.length < MAX_URLS := by
        have := hcond.1
        simpa using this
      refine ⟨?_, h.2⟩
      simp only [List.length_append, List.length_cons, List.length_nil]
      omega
    · exact h
  · exact h

theorem addDocGroupFun_capacity (aid : String) (nd : LocalDocument) (g : URLGroup)
    (h : g.urls.length ≤ MAX_URLS ∧ g.documents.length ≤ MAX_DOCS) :
    (addDocGroupFun aid nd g).urls.length ≤ MAX_URLS ∧
    (addDocGroupFun aid nd g).documents.length ≤ MAX_DOCS := by
  unfold addDocGroupFun
  split
  · split
    · rename_i hlt
      refine ⟨h.1, ?_⟩
      simp only [List.length_append, List.length_cons, List.length_nil]
      omega
    · exact h
  · exact h

theorem capacityInv_addUrl (st : AppState) (u : String) (h : capacityInv st) :
    capacityInv (handleAddUrl st u) := by
  intro g2 hg2
  rw [handleAddUrl_urlGroups] at hg2
  obtain ⟨g, hg, rfl⟩ := List.mem_map.mp hg2
  exact addUrlGroupFun_capacity _ u g (h g hg)

theorem capacityInv_addDocument (now : Nat) (fileName : String) (dx : Except String String)
    (px : Except String (List String)) (st : AppState) (h : capacityInv st) :
    capacityInv (handleAddDocument now fileName dx px st) := by
  rcases addDocument_urlGroups_cases now fileName dx px st with hsame | ⟨nd, hmap⟩
  · intro g2 hg2
    rw [hsame] at hg2
    exact h g2 hg2
  · intro g2 hg2
    rw [hmap] at hg2
    obtain ⟨g, hg, rfl⟩ := List.mem_map.mp hg2
    exact addDocGroupFun_capacity _ nd g (h g hg)

theorem capacityInv_applyAddOps (ops : List AddOp) :
    ∀ st : AppState, capacityInv st → capacityInv (applyAddOps st ops) := by
  induction ops with
  | nil => exact fun st h => h
  | cons op rest ih =>
    intro st h
    have hstep : capacityInv (applyAddOp st op) := by
      cases op with
      | addUrlOp u => exact capacityInv_addUrl st u h
      | addDocOp now fileName dx px => exact capacityInv_addDocument now fileName dx px st h
    exact ih (applyAddOp st op) hstep

/-- C2: after any sequence of add operations, every group's URL list stays
at most `MAX_URLS` (20) long and its document list at most `MAX_DOCS` (5)
long; a URL add attempted at capacity reports the capacity error and leaves
the state unchanged (checked by the `KnowledgeBaseManager` before it calls
the store, and independently by the store, which does not mutate a full
group); a document add attempted at capacity reports the capacity error in
the document panel and leaves every group unchanged. -/
theorem c2_capacity_invariant (st : AppState) (ops : List AddOp) :
    (capacityInv st → capacityInv (applyAddOps st ops)) ∧
    (∀ (isValidUrl : String → Bool) (kb : KBState),
      jsTrim kb.currentUrlInput ≠ "" →
      isValidUrl kb.currentUrlInput = true →
      MAX_URLS ≤ (currentUrlsForChat kb.app).length →
      (kbHandleAddUrl isValidUrl kb).app = kb.app ∧
      (kbHandleAddUrl isValidUrl kb).urlError
        = some ("You can add a maximum of " ++ toString MAX_URLS ++ " URLs to the current group.")) ∧
    (∀ u : String, (∀ g ∈ st.urlGroups, g.id = st.activeUrlGroupId → MAX_URLS ≤ g.urls.length) →
      (handleAddUrl st u).urlGroups = st.urlGroups) ∧
    (∀ (now : Nat) (fileName : String) (dx : Except String String)
        (px : Except String (List String)) (g0 : URLGroup) (t : String),
      activeGroup st = some g0 →
      (∀ g ∈ st.urlGroups, g.id = st.activeUrlGroupId → MAX_DOCS ≤ g.documents.length) →
      extractText fileName dx px = Except.ok t →
      jsTrim t ≠ "" →
      (handleAddDocument now fileName dx px st).urlGroups = st.urlGroups ∧
      (handleAddDocument now fileName dx px st).docError
        = some ("Maximum of " ++ toString MAX_DOCS ++ " documents reached.")) := by
  refine ⟨capacityInv_applyAddOps ops st, ?_, ?_, ?_⟩
  · intro isValidUrl kb htrim hvalid hlen
    unfold kbHandleAddUrl
    simp [htrim, hvalid, hlen]
  · intro u hfull
    rw [handleAddUrl_urlGroups]
    apply list_map_fix
    intro g hg
    unfold addUrlGroupFun
    by_cases hid : g.id = st.activeUrlGroupId
    · have hnot : ¬(g.urls.length < MAX_URLS) := not_lt.mpr (hfull g hg hid)
      simp [hid, hnot]
    · simp [hid]
  · intro now fileName dx px g0 t hactive hfull hok htrim
    have hmem : g0 ∈ st.urlGroups := List.mem_of_find?_eq_some hactive
    have hid0 : g0.id = st.activeUrlGroupId := by
      have := List.find?_some hactive
      simpa using this
    have hhit : st.urlGroups.any (fun group =>
        group.id = st.activeUrlGroupId && !(group.documents.length < MAX_DOCS)) = true := by
      rw [List.any_eq_true]
      refine ⟨g0, hmem, ?_⟩
      rw [Bool.and_eq_true]
      constructor
      · simpa using hid0
      · simp
        exact hfull g0 hmem hid0
    have hfix : st.urlGroups.map (fun group =>
        if group.id = st.activeUrlGroupId then
          if group.documents.length < MAX_DOCS then
            { group with documents := group.documents ++
                [{ id := "doc-" ++ toString now ++ "-" ++ fileName, name := fileName,
                   content := t }] }
          else group
        else group) = st.urlGroups := by
      apply list_map_fix
      intro g hg
      by_cases hid : g.id = st.activeUrlGroupId
      · have hnot : ¬(g.documents.length < MAX_DOCS) := not_lt.mpr (hfull g hg hid)
        simp [hid, hnot]
      · simp [hid]
    constructor
    · unfold handleAddDocument
      rw [hok]
      simp only [htrim, if_neg]
      simp [htrim, hfix]
    · unfold handleAddDocument
      rw [hok]
      simp [htrim, hhit]

/-- Twenty distinct URLs: a group at URL capacity. -/
def fullUrls : List KnowledgeUrl :=
  (List.range MAX_URLS).map (fun i =>
    { url := "https://full.example/" ++ toString i, title := "Full " ++ toString i })

/-- Five distinct documents: a group at document capacity. -/
def fullDocs : List LocalDocument :=
  (List.range MAX_DOCS).map (fun i =>
    { id := "stored-doc-" ++ toString i, name := "d" ++ toString i, content := "text" })

/-- A store whose single, active group is at URL capacity. -/
def fullUrlsState : AppState :=
  { initAppState with
      urlGroups := [{ id := "g1", name := "G1", urls := fullUrls, documents := [] }],
      activeUrlGroupId := "g1" }

/-- A store whose single, active group is at document capacity. -/
def fullDocsState : AppState :=
  { initAppState with
      urlGroups := [{ id := "g1", name := "G1", urls := [], documents := fullDocs }],
      activeUrlGroupId := "g1" }

/-- The `KnowledgeBaseManager` about to add a fresh URL to the full group. -/
def fullKB : KBState :=
  { app := fullUrlsState, currentUrlInput := "https://fresh.example/new", urlError := none }

/-- A concrete stand-in for the external `new URL` validator: accepts the
absolute http(s) URLs the witnesses and counterexamples use (`new URL`
succeeds on all of them). -/
def httpUrlLike (s : String) : Bool :=
  s.data.take 7 = "http://".data || s.data.take 8 = "https://".data

/-- C2 witness: the invariant evaluated after a concrete URL add and
document add starting from the initial state; the capacity-error conclusions
evaluated on concrete full groups. -/
theorem c2_capacity_invariant_witness :
    capacityInv (applyAddOps initAppState
      [AddOp.addUrlOp "https://x.example/a",
       AddOp.addDocOp 1 "a.docx" (Except.ok "hello") (Except.error "no pdf")]) ∧
    (kbHandleAddUrl httpUrlLike fullKB).app = fullKB.app ∧
    (kbHandleAddUrl httpUrlLike fullKB).urlError
      = some ("You can add a maximum of " ++ toString MAX_URLS ++ " URLs to the current group.") ∧
    (handleAddUrl fullUrlsState "https://fresh.example/new").urlGroups = fullUrlsState.urlGroups ∧
    (handleAddDocument 2 "b.docx" (Except.ok "world") (Except.error "no pdf") fullDocsState).urlGroups
      = fullDocsState.urlGroups ∧
    (handleAddDocument 2 "b.docx" (Except.ok "world") (Except.error "no pdf") fullDocsState).docError
      = some ("Maximum of " ++ toString MAX_DOCS ++ " documents reached.") := by
  have h1 := (c2_capacity_invariant initAppState
    [AddOp.addUrlOp "https://x.example/a",
     AddOp.addDocOp 1 "a.docx" (Except.ok "hello") (Except.error "no pdf")]).1 (by decide)
  have h2 := (c2_capacity_invariant fullUrlsState []).2.1 httpUrlLike fullKB
    (by decide) (by decide) (by decide)
  have h3 := (c2_capacity_invariant fullUrlsState []).2.2.1 "https://fresh.example/new" (by decide)
  have h4 := (c2_capacity_invariant fullDocsState []).2.2.2 2 "b.docx" (Except.ok "world")
    (Except.error "no pdf") { id := "g1", name := "G1", urls := [], documents := fullDocs }
    "world" (by decide) (by decide) (by rfl) (by decide)
  exact ⟨h1, h2.1, h2.2, h3, h4.1, h4.2⟩

/-! ## C3 -/

/-- C3, counterexample.  The claim quantifies over every group and URL; on a
group already at URL capacity, adding the same fresh URL twice yields zero
entries with that url (not exactly one), and the second attempt reports the
capacity error, not the duplicate error. -/
theorem c3_counterexample :
    ((currentUrlsForChat (kbHandleAddUrl httpUrlLike
        { kbHandleAddUrl httpUrlLike fullKB with
            currentUrlInput := "https://fresh.example/new" }).app).countP
      (fun item => item.url = "https://fresh.example/new") = 0) ∧
    (kbHandleAddUrl httpUrlLike
        { kbHandleAddUrl httpUrlLike fullKB with
            currentUrlInput := "https://fresh.example/new" }).urlError
      ≠ some "This URL has already been added to the current group." := by
  constructor
  · decide
  · decide

/-- C3, amended: when the active group exists, has at least two slots of
room below `MAX_URLS` (so the second attempt reaches the duplicate check
rather than the capacity check), does not yet contain `u`, and `u` passes
the non-emptiness and URL-validity guards, then adding `u` twice in
succession yields exactly one entry whose url is `u`, and the second attempt
reports the duplicate error and leaves the store unchanged. -/
theorem c3_duplicate_add_amended (isValidUrl : String → Bool) (kb : KBState) (g : URLGroup)
    (u : String)
    (hin : kb.currentUrlInput = u)
    (hactive : activeGroup kb.app = some g)
    (hroom : g.urls.length + 1 < MAX_URLS)
    (hfresh : ∀ item ∈ g.urls, item.url ≠ u)
    (htrim : jsTrim u ≠ "")
    (hvalid : isValidUrl u = true) :
    (currentUrlsForChat (kbHandleAddUrl isValidUrl
        { kbHandleAddUrl isValidUrl kb with currentUrlInput := u }).app).countP
      (fun item => item.url = u) = 1 ∧
    (kbHandleAddUrl isValidUrl { kbHandleAddUrl isValidUrl kb with currentUrlInput := u }).urlError
      = some "This URL has already been added to the current group." ∧
    (kbHandleAddUrl isValidUrl { kbHandleAddUrl isValidUrl kb with currentUrlInput := u }).app
      = (kbHandleAddUrl isValidUrl kb).app := by
  subst hin
  have hlt : g.urls.length < MAX_URLS := by omega
  have hid0 : g.id = kb.app.activeUrlGroupId := by
    simpa using List.find?_some hactive
  have hany : g.urls.any (fun item => item.url = kb.currentUrlInput) = false := by
    rw [List.any_eq_false]
    intro item hitem
    simpa using hfresh item hitem
  have hurls : currentUrlsForChat kb.app = g.urls := by
    unfold currentUrlsForChat
    rw [hactive]
  have hge : ¬(MAX_URLS ≤ (currentUrlsForChat kb.app).length) := by
    rw [hurls]
    omega
  have hkb1 : kbHandleAddUrl isValidUrl kb
      = { kb with app := handleAddUrl kb.app kb.currentUrlInput,
                  currentUrlInput := "", urlError := none } := by
    unfold kbHandleAddUrl
    simp [htrim, hvalid, hge, hurls, hany, hlt]
  have hcond : (g.urls.length < MAX_URLS &&
      !(g.urls.any (fun item => item.url = kb.currentUrlInput))) = true := by
    simp [hany]
    exact hlt
  have hfg : addUrlGroupFun kb.app.activeUrlGroupId kb.currentUrlInput g
      = { g with urls := g.urls ++
            [{ url := kb.currentUrlInput, title := kb.currentUrlInput }] } := by
    unfold addUrlGroupFun
    rw [if_pos hid0, if_pos hcond]
  have hfind : kb.app.urlGroups.find? (fun group => group.id = kb.app.activeUrlGroupId)
      = some g := hactive
  have hactive1 : activeGroup (handleAddUrl kb.app kb.currentUrlInput)
      = some (addUrlGroupFun kb.app.activeUrlGroupId kb.currentUrlInput g) := by
    have hstep : activeGroup (handleAddUrl kb.app kb.currentUrlInput)
        = (kb.app.urlGroups.map
            (addUrlGroupFun kb.app.activeUrlGroupId kb.currentUrlInput)).find?
            (fun group => group.id = kb.app.activeUrlGroupId) := rfl
    rw [hstep,
      find_map_of_id_pres _ (fun gr => (addUrlGroupFun_fix _ kb.currentUrlInput gr).1) _ _,
      hfind]
    rfl
  have hurls2 : currentUrlsForChat (handleAddUrl kb.app kb.currentUrlInput)
      = g.urls ++ [{ url := kb.currentUrlInput, title := kb.currentUrlInput }] := by
    unfold currentUrlsForChat
    rw [hactive1, hfg]
  have happlen : ¬(MAX_URLS ≤
      (currentUrlsForChat (handleAddUrl kb.app kb.currentUrlInput)).length) := by
    rw [hurls2]
    simp
    omega
  have hany2 : (currentUrlsForChat (handleAddUrl kb.app kb.currentUrlInput)).any
      (fun item => item.url = kb.currentUrlInput) = true := by
    rw [hurls2]
    simp
  have hkb2 : kbHandleAddUrl isValidUrl
        { kbHandleAddUrl isValidUrl kb with currentUrlInput := kb.currentUrlInput }
      = { app := handleAddUrl kb.app kb.currentUrlInput,
          currentUrlInput := kb.currentUrlInput,
          urlError := some "This URL has already been added to the current group." } := by
    rw [hkb1]
    unfold kbHandleAddUrl
    simp [htrim, hvalid, happlen, hany2]
  refine ⟨?_, ?_, ?_⟩
  · rw [hkb2]
    show (currentUrlsForChat (handleAddUrl kb.app kb.currentUrlInput)).countP
      (fun item => item.url = kb.currentUrlInput) = 1
    rw [hurls2, List.countP_append]
    have hzero : g.urls.countP (fun item => item.url = kb.currentUrlInput) = 0 :=
      List.countP_eq_zero.mpr (fun a ha => by simpa using hfresh a ha)
    simp [hzero]
  · rw [hkb2]
  · rw [hkb2, hkb1]

/-- A small store with room: one active group holding one URL. -/
def smallState : AppState :=
  { initAppState with
      urlGroups :=
        [{ id := "g1", name := "G1",
           urls := [{ url := "https://a.example/x", title := "A" }], documents := [] }],
      activeUrlGroupId := "g1" }

/-- The `KnowledgeBaseManager` about to add a fresh URL to the small group. -/
def smallKB : KBState :=
  { app := smallState, currentUrlInput := "https://fresh.example/new", urlError := none }

/-- C3 witness: the amended statement evaluated on a one-URL group and a
fresh URL. -/
theorem c3_duplicate_add_amended_witness :
    (currentUrlsForChat (kbHandleAddUrl httpUrlLike
        { kbHandleAddUrl httpUrlLike smallKB with
            currentUrlInput := "https://fresh.example/new" }).app).countP
      (fun item => item.url = "https://fresh.example/new") = 1 ∧
    (kbHandleAddUrl httpUrlLike
        { kbHandleAddUrl httpUrlLike smallKB with
            currentUrlInput := "https://fresh.example/new" }).urlError
      = some "This URL has already been added to the current group." ∧
    (kbHandleAddUrl httpUrlLike
        { kbHandleAddUrl httpUrlLike smallKB with
            currentUrlInput := "https://fresh.example/new" }).app
      = (kbHandleAddUrl httpUrlLike smallKB).app :=
  c3_duplicate_add_amended httpUrlLike smallKB
    { id := "g1", name := "G1",
      urls := [{ url := "https://a.example/x", title := "A" }], documents := [] }
    "https://fresh.example/new" rfl (by rfl) (by decide) (by decide) (by decide) (by decide)

/-! ## C5, C6 -/

/-- The fresh user-message id and placeholder id never collide (their
prefixes have different lengths). -/
theorem userId_ne_placeholderId (now : Nat) :
    ("user-" ++ toString now : String) ≠ "model-response-" ++ toString now := by
  intro h
  have hlen := congrArg String.length h
  rw [String.length_append, String.length_append] at hlen
  have h1 : ("user-" : String).length = 5 := rfl
  have h2 : ("model-response-" : String).length = 15 := rfl
  rw [h1, h2] at hlen
  omega

/-- Replacing by an id that occurs nowhere in a message list is the
identity. -/
theorem map_replace_fresh (msgs : List ChatMessage) (pid : String) (f : ChatMessage → ChatMessage)
    (h : ∀ m ∈ msgs, m.id ≠ pid) :
    msgs.map (fun msg => if msg.id = pid then f msg else msg) = msgs :=
  list_map_fix msgs _ (fun m hm => if_neg (h m hm))

/-- C5: an accepted query appends exactly the user message (carrying the
literal query text) and then the loading placeholder; when the generation
request then resolves, the placeholder — matched by id — is replaced in
place by the response text (with the "I received an empty response."
fallback when the text is absent or empty), a cleared loading flag and the
returned retrieval metadata, every other log entry (the prior log and the
user message) is unchanged, and the in-flight flag ends cleared. -/
theorem c5_sendMessage_success (now : Nat) (query : String) (st : AppState)
    (response : GenResponse)
    (hq : jsTrim query ≠ "") (hl : st.isLoading = false) (hf : st.isFetchingSuggestions = false)
    (hfreshid : ∀ m ∈ st.chatMessages, m.id ≠ (modelPlaceholderMessage now).id) :
    handleSendMessageStart true now query st
      = { st with
            isLoading := true,
            initialQuerySuggestions := [],
            chatMessages := st.chatMessages ++ [userMessage now query, modelPlaceholderMessage now] } ∧
    (userMessage now query).text = query ∧
    (userMessage now query).sender = MessageSender.user ∧
    (modelPlaceholderMessage now).sender = MessageSender.model ∧
    (modelPlaceholderMessage now).isLoading = some true ∧
    handleSendMessageSuccess now response (handleSendMessageStart true now query st)
      = { st with
            isLoading := false,
            initialQuerySuggestions := [],
            chatMessages := st.chatMessages ++ [userMessage now query,
              { modelPlaceholderMessage now with
                  text := jsOr response.text "I received an empty response.",
                  isLoading := some false,
                  urlContext := response.urlContextMetadata }] } := by
  have hstart : handleSendMessageStart true now query st
      = { st with
            isLoading := true,
            initialQuerySuggestions := [],
            chatMessages := st.chatMessages ++ [userMessage now query, modelPlaceholderMessage now] } := by
    unfold handleSendMessageStart
    simp [hq, hl, hf]
  refine ⟨hstart, rfl, rfl, rfl, rfl, ?_⟩
  rw [hstart]
  unfold handleSendMessageSuccess
  simp only [List.map_append]
  rw [map_replace_fresh st.chatMessages (modelPlaceholderMessage now).id _ hfreshid]
  have hmap2 : [userMessage now query, modelPlaceholderMessage now].map
      (fun msg => if msg.id = (modelPlaceholderMessage now).id then
        { modelPlaceholderMessage now with
            text := jsOr response.text "I received an empty response.",
            isLoading := some false,
            urlContext := response.urlContextMetadata }
      else msg)
      = [userMessage now query,
         { modelPlaceholderMessage now with
             text := jsOr response.text "I received an empty response.",
             isLoading := some false,
             urlContext := response.urlContextMetadata }] := by
    have hne : (userMessage now query).id ≠ (modelPlaceholderMessage now).id :=
      userId_ne_placeholderId now
    rw [List.map_cons, List.map_cons, List.map_nil, if_neg hne, if_pos rfl]
  rw [hmap2]

/-- C5 witness: the spec scenario — one URL in the active group, the query
"What is x?", a successful response "X is ..." with no retrieval metadata —
evaluated concretely. -/
theorem c5_sendMessage_success_witness :
    handleSendMessageStart true 9 "What is x?" smallState
      = { smallState with
            isLoading := true,
            initialQuerySuggestions := [],
            chatMessages := smallState.chatMessages
              ++ [userMessage 9 "What is x?", modelPlaceholderMessage 9] } ∧
    handleSendMessageSuccess 9 { text := some "X is ...", urlContextMetadata := none }
        (handleSendMessageStart true 9 "What is x?" smallState)
      = { smallState with
            isLoading := false,
            initialQuerySuggestions := [],
            chatMessages := smallState.chatMessages ++ [userMessage 9 "What is x?",
              { modelPlaceholderMessage 9 with
                  text := "X is ...",
                  isLoading := some false,
                  urlContext := none }] } := by
  have h := c5_sendMessage_success 9 "What is x?" smallState
    { text := some "X is ...", urlContextMetadata := none }
    (by decide) rfl rfl (by decide)
  refine ⟨h.1, ?_⟩
  have h6 := h.2.2.2.2.2
  rw [h6]
  decide

/-- C6: when the generation request for an accepted query fails, the
placeholder — matched by id — is replaced in place by a system-sender
message whose text is "Error: " followed by the failure reason (the code's
own fallback reason when the thrown message is absent or empty), with the
loading flag cleared; the prior log and the user message are unchanged and
the in-flight flag ends cleared. -/
theorem c6_sendMessage_failure (now : Nat) (query : String) (st : AppState)
    (errMsg : Option String)
    (hq : jsTrim query ≠ "") (hl : st.isLoading = false) (hf : st.isFetchingSuggestions = false)
    (hfreshid : ∀ m ∈ st.chatMessages, m.id ≠ (modelPlaceholderMessage now).id) :
    handleSendMessageFailure now errMsg (handleSendMessageStart true now query st)
      = { st with
            isLoading := false,
            initialQuerySuggestions := [],
            chatMessages := st.chatMessages ++ [userMessage now query,
              { modelPlaceholderMessage now with
                  text := "Error: " ++ jsOr errMsg "Failed to get response from AI.",
                  sender := MessageSender.system,
                  isLoading := some false }] } := by
  have hstart : handleSendMessageStart true now query st
      = { st with
            isLoading := true,
            initialQuerySuggestions := [],
            chatMessages := st.chatMessages ++ [userMessage now query, modelPlaceholderMessage now] } := by
    unfold handleSendMessageStart
    simp [hq, hl, hf]
  rw [hstart]
  unfold handleSendMessageFailure
  simp only [List.map_append]
  rw [map_replace_fresh st.chatMessages (modelPlaceholderMessage now).id _ hfreshid]
  have hmap2 : [userMessage now query, modelPlaceholderMessage now].map
      (fun msg => if msg.id = (modelPlaceholderMessage now).id then
        { modelPlaceholderMessage now with
            text := "Error: " ++ jsOr errMsg "Failed to get response from AI.",
            sender := MessageSender.system,
            isLoading := some false }
      else msg)
      = [userMessage now query,
         { modelPlaceholderMessage now with
             text := "Error: " ++ jsOr errMsg "Failed to get response from AI.",
             sender := MessageSender.system,
             isLoading := some false }] := by
    have hne : (userMessage now query).id ≠ (modelPlaceholderMessage now).id :=
      userId_ne_placeholderId now
    rw [List.map_cons, List.map_cons, List.map_nil, if_neg hne, if_pos rfl]
  rw [hmap2]

/-- C6 witness: a failing request with reason "boom" evaluated concretely —
the placeholder becomes the system message "Error: boom". -/
theorem c6_sendMessage_failure_witness :
    handleSendMessageFailure 9 (some "boom")
        (handleSendMessageStart true 9 "What is x?" smallState)
      = { smallState with
            isLoading := false,
            initialQuerySuggestions := [],
            chatMessages := smallState.chatMessages ++ [userMessage 9 "What is x?",
              { modelPlaceholderMessage 9 with
                  text := "Error: boom",
                  sender := MessageSender.system,
                  isLoading := some false }] } := by
  have h := c6_sendMessage_failure 9 "What is x?" smallState (some "boom")
    (by decide) rfl rfl (by decide)
  rw [h]
  decide

/-! ## C7 -/

/-- C7: on a resolved suggestion fetch with a non-empty body, the body is
trimmed and fence-stripped before parsing (`parseJson` is only ever applied
to `strippedBody body`); when the parsed value is an object whose
`suggestions` field is an array, exactly the string elements are kept, in
their original order, and exactly the first four of them become the
suggestion list, with no log message; when parsing throws, or the parsed
value lacks an array `suggestions` field, the suggestion list is empty and
exactly one system message is appended; the fetching flag always ends
cleared. -/
theorem c7_suggestions_pipeline (parseJson : String → Option Json)
    (urls docContents : List String) (body : String) (now : Nat) (st : AppState)
    (hne : ¬(urls.length = 0 ∧ docContents.length = 0)) (hbody : body ≠ "") :
    (∀ parsed xs, parseJson (strippedBody body) = some parsed →
      jsTruthy parsed = true → jsonField parsed "suggestions" = some (Json.arr xs) →
      fetchAndSetInitialSuggestionsResolved parseJson urls docContents
          { text := some body, urlContextMetadata := none } now st
        = { st with
              isFetchingSuggestions := false,
              initialQuerySuggestions := (xs.filterMap isStringJson).take 4 }) ∧
    (parseJson (strippedBody body) = none →
      fetchAndSetInitialSuggestionsResolved parseJson urls docContents
          { text := some body, urlContextMetadata := none } now st
        = { st with
              isFetchingSuggestions := false,
              initialQuerySuggestions := [],
              chatMessages := st.chatMessages ++
                [sysMsg ("sys-err-suggestion-parse-" ++ toString now)
                  "Error parsing suggestions from AI." now] }) ∧
    (∀ parsed, parseJson (strippedBody body) = some parsed →
      (∀ xs, ¬(jsTruthy parsed = true ∧ jsonField parsed "suggestions" = some (Json.arr xs))) →
      fetchAndSetInitialSuggestionsResolved parseJson urls docContents
          { text := some body, urlContextMetadata := none } now st
        = { st with
              isFetchingSuggestions := false,
              initialQuerySuggestions := [],
              chatMessages := st.chatMessages ++
                [sysMsg ("sys-err-suggestion-fmt-" ++ toString now)
                  "Received suggestions in an unexpected format." now] }) := by
  have hcond : (urls.length = 0 && docContents.length = 0) = false := by
    rw [Bool.and_eq_false_iff]
    by_cases h1 : urls.length = 0
    · right
      simp only [decide_eq_false_iff_not]
      intro h2
      exact hne ⟨h1, h2⟩
    · left
      simp only [decide_eq_false_iff_not]
      exact h1
  refine ⟨?_, ?_, ?_⟩
  · intro parsed xs hparse htruthy hfield
    unfold fetchAndSetInitialSuggestionsResolved
    rw [if_neg (by rw [hcond]; exact Bool.false_ne_true)]
    simp only [hbody, hparse, htruthy, hfield, if_true]
    simp [hbody]
  · intro hparse
    unfold fetchAndSetInitialSuggestionsResolved
    rw [if_neg (by rw [hcond]; exact Bool.false_ne_true)]
    simp [hbody, hparse]
  · intro parsed hparse hbad
    unfold fetchAndSetInitialSuggestionsResolved
    rw [if_neg (by rw [hcond]; exact Bool.false_ne_true)]
    cases htruthy : jsTruthy parsed with
    | false => simp [hbody, hparse, htruthy]
    | true =>
      cases hfield : jsonField parsed "suggestions" with
      | none => simp [hbody, hparse, htruthy, hfield]
      | some j =>
        cases j with
        | arr xs => exact absurd ⟨htruthy, hfield⟩ (hbad xs)
        | null => simp [hbody, hparse, htruthy, hfield]
        | bool b => simp [hbody, hparse, htruthy, hfield]
        | num n => simp [hbody, hparse, htruthy, hfield]
        | str s => simp [hbody, hparse, htruthy, hfield]
        | obj fields => simp [hbody, hparse, htruthy, hfield]

/-- A concrete stand-in for the host's `JSON.parse` used by the witness: it
parses exactly the inner JSON of the fenced scenario body. -/
def parseJsonStub (s : String) : Option Json :=
  if s = "\x7b\"suggestions\":[\"a\",\"b\",\"c\",\"d\",\"e\"]\x7d" then
    some (Json.obj [("suggestions",
      Json.arr [Json.str "a", Json.str "b", Json.str "c", Json.str "d", Json.str "e"])])
  else
    none

/-- The spec's scenario body: five suggestions as fenced JSON. -/
def fencedBody : String :=
  "```json\n\x7b\"suggestions\":[\"a\",\"b\",\"c\",\"d\",\"e\"]\x7d\n```"

/-- C7 witness: the fenced five-suggestion body yields exactly the first
four suggestions in order and no log message; an unparseable body yields an
empty list and one system message. -/
theorem c7_suggestions_pipeline_witness :
    fetchAndSetInitialSuggestionsResolved parseJsonStub ["https://a.example/x"] []
        { text := some fencedBody, urlContextMetadata := none } 4 smallState
      = { smallState with
            isFetchingSuggestions := false,
            initialQuerySuggestions := ["a", "b", "c", "d"] } ∧
    fetchAndSetInitialSuggestionsResolved parseJsonStub ["https://a.example/x"] []
        { text := some "not json at all", urlContextMetadata := none } 4 smallState
      = { smallState with
            isFetchingSuggestions := false,
            initialQuerySuggestions := [],
            chatMessages := smallState.chatMessages ++
              [sysMsg "sys-err-suggestion-parse-4" "Error parsing suggestions from AI." 4] } := by
  constructor
  · have h := (c7_suggestions_pipeline parseJsonStub ["https://a.example/x"] [] fencedBody 4
      smallState (by decide) (by decide)).1
      (Json.obj [("suggestions",
        Json.arr [Json.str "a", Json.str "b", Json.str "c", Json.str "d", Json.str "e"])])
      [Json.str "a", Json.str "b", Json.str "c", Json.str "d", Json.str "e"]
      (by rfl) (by rfl) (by rfl)
    rw [h]
    decide
  · have h := (c7_suggestions_pipeline parseJsonStub ["https://a.example/x"] [] "not json at all"
      4 smallState (by decide) (by decide)).2.1 (by rfl)
    rw [h]
    decide

/-! ## C8 -/

/-- C8: `handleAddDocument` fails without touching any group when the file's
lower-cased name ends in neither ".docx" nor ".pdf" (reporting the
unsupported-type message), and when the extracted text trims to empty
(reporting the empty-or-unreadable message); any extraction failure likewise
leaves every group untouched; and every document present after the call was
either already present in a group of the same id or carries the
successfully extracted, non-whitespace text. -/
theorem c8_addDocument_gates (now : Nat) (fileName : String) (dx : Except String String)
    (px : Except String (List String)) (st : AppState) :
    (jsEndsWith (jsToLower fileName) ".docx" = false →
      jsEndsWith (jsToLower fileName) ".pdf" = false →
      (handleAddDocument now fileName dx px st).urlGroups = st.urlGroups ∧
      (handleAddDocument now fileName dx px st).docError
        = some "Unsupported file type. Please select a .docx or .pdf file.") ∧
    (∀ t, extractText fileName dx px = Except.ok t → jsTrim t = "" →
      (handleAddDocument now fileName dx px st).urlGroups = st.urlGroups ∧
      (handleAddDocument now fileName dx px st).docError
        = some "Could not extract any text from the document. It might be empty or image-based.") ∧
    (∀ e, extractText fileName dx px = Except.error e →
      (handleAddDocument now fileName dx px st).urlGroups = st.urlGroups ∧
      (handleAddDocument now fileName dx px st).docError = some e) ∧
    (∀ g2 ∈ (handleAddDocument now fileName dx px st).urlGroups, ∀ d ∈ g2.documents,
      (∃ g ∈ st.urlGroups, g.id = g2.id ∧ d ∈ g.documents) ∨
      (∃ t, extractText fileName dx px = Except.ok t ∧ jsTrim t ≠ "" ∧ d.content = t)) := by
  have herr : ∀ e, extractText fileName dx px = Except.error e →
      (handleAddDocument now fileName dx px st).urlGroups = st.urlGroups ∧
      (handleAddDocument now fileName dx px st).docError = some e := by
    intro e he
    unfold handleAddDocument
    rw [he]
    exact ⟨rfl, rfl⟩
  refine ⟨?_, ?_, herr, ?_⟩
  · intro hdocx hpdf
    apply herr
    unfold extractText
    rw [hdocx, hpdf]
    simp
  · intro t ht htrim
    unfold handleAddDocument
    rw [ht]
    simp [htrim]
  · intro g2 hg2 d hd
    rcases hres : extractText fileName dx px with e | t
    · left
      have := (herr e hres).1
      rw [this] at hg2
      exact ⟨g2, hg2, rfl, hd⟩
    · by_cases htrim : jsTrim t = ""
      · left
        have hsame : (handleAddDocument now fileName dx px st).urlGroups = st.urlGroups := by
          unfold handleAddDocument
          rw [hres]
          simp [htrim]
        rw [hsame] at hg2
        exact ⟨g2, hg2, rfl, hd⟩
      · have hmap : (handleAddDocument now fileName dx px st).urlGroups
            = st.urlGroups.map (addDocGroupFun st.activeUrlGroupId
                { id := "doc-" ++ toString now ++ "-" ++ fileName, name := fileName,
                  content := t }) := by
          unfold handleAddDocument
          rw [hres]
          simp only [htrim, if_neg]
          simp [addDocGroupFun, htrim]
        rw [hmap] at hg2
        obtain ⟨g, hg, rfl⟩ := List.mem_map.mp hg2
        unfold addDocGroupFun at hd ⊢
        by_cases hid : g.id = st.activeUrlGroupId
        · by_cases hcap : g.documents.length < MAX_DOCS
          · rw [if_pos hid, if_pos hcap] at hd ⊢
            rcases List.mem_append.mp hd with hold | hnew
            · exact Or.inl ⟨g, hg, rfl, hold⟩
            · right
              refine ⟨t, rfl, htrim, ?_⟩
              rcases List.mem_singleton.mp hnew with rfl
              rfl
          · rw [if_pos hid, if_neg hcap] at hd ⊢
            exact Or.inl ⟨g, hg, rfl, hd⟩
        · rw [if_neg hid] at hd ⊢
          exact Or.inl ⟨g, hg, rfl, hd⟩

/-- C8 witness: the gate conclusions evaluated on concrete files — a ".txt"
upload is rejected with the unsupported-type message and no group change; a
".docx" whose extractor returns only whitespace is rejected with the
empty-or-unreadable message and no group change. -/
theorem c8_addDocument_gates_witness :
    (handleAddDocument 6 "notes.txt" (Except.ok "hello") (Except.error "boom")
        smallState).urlGroups = smallState.urlGroups ∧
    (handleAddDocument 6 "notes.txt" (Except.ok "hello") (Except.error "boom")
        smallState).docError
      = some "Unsupported file type. Please select a .docx or .pdf file." ∧
    (handleAddDocument 6 "empty.docx" (Except.ok "  \n ") (Except.error "boom")
        smallState).urlGroups = smallState.urlGroups ∧
    (handleAddDocument 6 "empty.docx" (Except.ok "  \n ") (Except.error "boom")
        smallState).docError
      = some "Could not extract any text from the document. It might be empty or image-based." := by
  have h1 := (c8_addDocument_gates 6 "notes.txt" (Except.ok "hello") (Except.error "boom")
    smallState).1 (by decide) (by decide)
  have h2 := (c8_addDocument_gates 6 "empty.docx" (Except.ok "  \n ") (Except.error "boom")
    smallState).2.1 "  \n " (by rfl) (by decide)
  exact ⟨h1.1, h1.2, h2.1, h2.2⟩
